/-
  Verification of the insurance claims processing pipeline.

  This file gives a shallow embedding, in Lean 4, of the core pipeline of the
  repository: the field validator (src/agents/validator.py), the claim router
  (src/agents/router.py) and the rule-based field extraction engine
  (src/agents/llm_processor.py, method of the processor that extracts with
  regular expressions).  Extracted field sets are modelled, as in the Python
  source, as string-keyed association maps whose values are optional strings
  (the "absent" marker None of the source becomes Option.none).  Python floats
  are modelled as exact rationals extended with infinities and a not-a-number
  value; numeric string parsing follows the grammar accepted by the Python
  float constructor (modelling assumptions: values are kept as exact rationals
  rather than being rounded to IEEE doubles, and case conversion and whitespace
  are treated at ASCII level).  The regular-expression engine of the Python
  standard library is an external collaborator of the extraction code; it is
  modelled by an oracle record holding one match function per pattern, so the
  theorems about the extraction engine hold for every behaviour of the regex
  engine.
-/
import Mathlib

/-! ## Python-style string primitives (List Char based, kernel-computable) -/

/-- Whitespace characters stripped by Python str.strip / float, ASCII fragment. -/
def isPySpace (c : Char) : Bool :=
  c = ' ' || c = '\t' || c = '\n' || c = '\r' || c = '\x0b' || c = '\x0c'

/-- Models Python str.strip() (ASCII whitespace fragment). -/
def pyStrip (s : String) : String :=
  ⟨((s.data.dropWhile isPySpace).reverse.dropWhile isPySpace).reverse⟩

/-- Lower-casing of a single character, ASCII fragment of Python str.lower(). -/
def pyCharLower (c : Char) : Char :=
  if 'A' ≤ c ∧ c ≤ 'Z' then Char.ofNat (c.toNat + 32) else c

/-- Models Python str.lower() (ASCII fragment). -/
def pyLower (s : String) : String := ⟨s.data.map pyCharLower⟩

/-- Models the Python substring test pattern-in-haystack. -/
def strContains (hay pat : String) : Bool :=
  (List.range (hay.data.length + 1)).any fun i => pat.data.isPrefixOf (hay.data.drop i)

/-- Models Python sep.join(xs). -/
def pyJoin (sep : String) : List String → String
  | [] => ""
  | [x] => x
  | x :: xs => x ++ (sep ++ pyJoin sep xs)

/-- Fuel-driven worker for pyReplace; the fuel is the length of the scanned list,
which bounds the number of scanning steps since every step consumes at least one
character of the input. -/
def replaceFuel (pat rep : List Char) : ℕ → List Char → List Char
  | 0, cs => cs
  | _ + 1, [] => []
  | fuel + 1, c :: cs =>
    if pat.isPrefixOf (c :: cs) then rep ++ replaceFuel pat rep fuel (cs.drop (pat.length - 1))
    else c :: replaceFuel pat rep fuel cs

/-- Models Python s.replace(pat, rep) for a non-empty pattern (all the patterns
replaced by the source are non-empty). -/
def pyReplace (s pat rep : String) : String :=
  ⟨replaceFuel pat.data rep.data s.data.length s.data⟩

/-- Worker for pySplitOnChar: accumulates the current piece in reverse. -/
def splitOnCharAux (sep : Char) : List Char → List Char → List String
  | acc, [] => [⟨acc.reverse⟩]
  | acc, c :: cs =>
    if c = sep then (⟨acc.reverse⟩ : String) :: splitOnCharAux sep [] cs
    else splitOnCharAux sep (c :: acc) cs

/-- Models Python s.split(sep) for a single-character separator. -/
def pySplitOnChar (s : String) (sep : Char) : List String :=
  splitOnCharAux sep [] s.data

/-- Worker splitting a character list at every whitespace character, keeping
empty pieces. -/
def splitWsAux : List Char → List Char → List String
  | acc, [] => [⟨acc.reverse⟩]
  | acc, c :: cs =>
    if isPySpace c then (⟨acc.reverse⟩ : String) :: splitWsAux [] cs
    else splitWsAux (c :: acc) cs

/-- Models Python s.split() with no argument: split on whitespace runs and drop
empty pieces. -/
def pySplitWs (s : String) : List String :=
  (splitWsAux [] s.data).filter (· ≠ "")

/-- Models the Python idiom joining s.split() with single spaces, which collapses
all whitespace runs. -/
def pyCollapseWs (s : String) : String := pyJoin " " (pySplitWs s)

/-- Models the Python slice s[:n]. -/
def pyTake (s : String) (n : ℕ) : String := ⟨s.data.take n⟩

/-- Models Python s.rstrip(single character). -/
def pyRstripChar (s : String) (c : Char) : String :=
  ⟨(s.data.reverse.dropWhile (· = c)).reverse⟩

/-! ## Python float model

A Python float is modelled as an exact rational, positive or negative
infinity, or a not-a-number value.  Parsing follows the grammar of the float
constructor: optional surrounding whitespace, optional sign, then either a
decimal literal (with optional fractional part and exponent, and underscores
allowed strictly between digits) or one of the words inf, infinity, nan,
case-insensitively. -/

inductive PyNum where
  | fin (q : ℚ)
  | inf
  | ninf
  | nan
deriving DecidableEq, Repr

/-- IEEE-style strict less-than on modelled Python floats. -/
def pyLt : PyNum → PyNum → Bool
  | .nan, _ => false
  | _, .nan => false
  | .ninf, .ninf => false
  | .ninf, _ => true
  | _, .ninf => false
  | .inf, _ => false
  | .fin _, .inf => true
  | .fin a, .fin b => decide (a < b)

/-- IEEE-style equality test on modelled Python floats. -/
def pyEq : PyNum → PyNum → Bool
  | .nan, _ => false
  | _, .nan => false
  | .inf, .inf => true
  | .ninf, .ninf => true
  | .fin a, .fin b => decide (a = b)
  | _, _ => false

/-- Subtraction on modelled Python floats. -/
def pySub : PyNum → PyNum → PyNum
  | .nan, _ => .nan
  | _, .nan => .nan
  | .inf, .inf => .nan
  | .inf, _ => .inf
  | .ninf, .ninf => .nan
  | .ninf, _ => .ninf
  | .fin _, .inf => .ninf
  | .fin _, .ninf => .inf
  | .fin a, .fin b => .fin (a - b)

/-- Absolute value on modelled Python floats. -/
def pyAbs : PyNum → PyNum
  | .fin a => .fin |a|
  | .nan => .nan
  | _ => .inf

/-- Models the Python builtin max of two floats, which replaces its first
argument exactly when the second compares strictly greater. -/
def pyMax (a b : PyNum) : PyNum := if pyLt a b then b else a

/-- Division on modelled Python floats.  Division of a finite value by zero
raises in Python; here it yields the junk value nan, and is unreachable in the
embedded validator because the divisor there is the maximum of two strictly
positive values. -/
def pyDiv : PyNum → PyNum → PyNum
  | .nan, _ => .nan
  | _, .nan => .nan
  | .inf, .inf => .nan
  | .inf, .ninf => .nan
  | .ninf, .inf => .nan
  | .ninf, .ninf => .nan
  | .inf, .fin b => if b < 0 then .ninf else .inf
  | .ninf, .fin b => if b < 0 then .inf else .ninf
  | .fin _, .inf => .fin 0
  | .fin _, .ninf => .fin 0
  | .fin a, .fin b => if b = 0 then .nan else .fin (a / b)

/-- Checks that every underscore of the list sits directly between two digits,
the Python rule for underscores in numeric literals. -/
def underscoresOkAux (prev : Char) : List Char → Bool
  | [] => true
  | c :: cs =>
    if c = '_' then
      (prev.isDigit && (match cs with | d :: _ => d.isDigit | [] => false))
        && underscoresOkAux c cs
    else underscoresOkAux c cs

/-- Top-level underscore check: an initial underscore is always invalid. -/
def underscoresOk : List Char → Bool
  | [] => true
  | c :: cs => if c = '_' then false else underscoresOkAux c cs

/-- Consumes an optional leading sign; returns whether it was a minus. -/
def parseSignChars : List Char → Bool × List Char
  | '+' :: cs => (false, cs)
  | '-' :: cs => (true, cs)
  | cs => (false, cs)

/-- Numeric value of a list of decimal digits. -/
def natOfDigits (ds : List Char) : ℕ :=
  ds.foldl (fun n c => 10 * n + (c.toNat - 48)) 0

/-- Scales a rational by a signed power of ten. -/
def applyExp (q : ℚ) (e : ℤ) : ℚ :=
  if e = 0 then q
  else if 0 ≤ e then q * (10 : ℚ) ^ e.toNat
  else q / (10 : ℚ) ^ (-e).toNat

/-- Parses the exponent part of a float literal.  The whole remainder must be
consumed; an empty remainder means exponent zero. -/
def parseExpPart : List Char → Option ℤ
  | [] => some 0
  | c :: cs =>
    if c = 'e' ∨ c = 'E' then
      let sgn := parseSignChars cs
      let spl := sgn.2.span Char.isDigit
      if spl.1 ≠ [] ∧ spl.2 = [] then
        some (if sgn.1 then -(natOfDigits spl.1 : ℤ) else (natOfDigits spl.1 : ℤ))
      else none
    else none

/-- Combines integer digits, fraction digits and the remaining exponent text
into a rational. -/
def parseMantExp (ip fp rest : List Char) : Option ℚ :=
  match parseExpPart rest with
  | some e => some (applyExp (natOfDigits (ip ++ fp) : ℚ) (e - fp.length))
  | none => none

/-- Parses an unsigned decimal float literal (digits, optional point, optional
exponent); at least one digit must appear before or after the point. -/
def parseDecimal (cs : List Char) : Option ℚ :=
  let ispl := cs.span Char.isDigit
  match ispl.2 with
  | '.' :: r1 =>
    let fspl := r1.span Char.isDigit
    if ispl.1 = [] ∧ fspl.1 = [] then none
    else parseMantExp ispl.1 fspl.1 fspl.2
  | _ =>
    if ispl.1 = [] then none else parseMantExp ispl.1 [] ispl.2

/-- Parses a signed float body (after whitespace stripping and underscore
removal): the special words inf, infinity and nan, or a decimal literal. -/
def parseSigned (cs : List Char) : Option PyNum :=
  let sgn := parseSignChars cs
  let low := sgn.2.map pyCharLower
  if low = "inf".data ∨ low = "infinity".data then
    some (if sgn.1 then .ninf else .inf)
  else if low = "nan".data then some .nan
  else
    match parseDecimal sgn.2 with
    | some q => some (.fin (if sgn.1 then -q else q))
    | none => none

/-- Models the Python float constructor applied to a string: strip whitespace,
validate underscores, then parse the signed body.  Returns none exactly when
Python raises ValueError. -/
def pyFloat? (s : String) : Option PyNum :=
  let cs := ((s.data.dropWhile isPySpace).reverse.dropWhile isPySpace).reverse
  if underscoresOk cs then parseSigned (cs.filter (fun c => c ≠ '_'))
  else none

/-- The amount-normalisation idiom shared by the router and the validator:
value.replace(comma, empty).replace(rupee sign, empty).replace(Rs, empty).strip()
followed by the float constructor. -/
def parseAmount (s : String) : Option PyNum :=
  pyFloat? (pyStrip (pyReplace (pyReplace (pyReplace s "," "") "₹" "") "Rs" ""))

/-! ## The extracted-field-set model

An extracted field set is, as in the Python source, a dictionary from section
names to dictionaries from field names to optional strings.  Dictionaries are
association lists; lookup takes the first binding, insertion updates in place. -/

/-- Inner dictionary of one schema section: field name to optional string. -/
abbrev InnerDict := List (String × Option String)

/-- An extracted field set: section name to section dictionary. -/
abbrev FieldsDict := List (String × InnerDict)

/-- Association-list lookup, modelling Python dict indexing / get. -/
def dictGet {α : Type} : List (String × α) → String → Option α
  | [], _ => none
  | p :: rest, k => if p.1 = k then some p.2 else dictGet rest k

/-- Association-list update, modelling Python dict assignment: replaces the
first binding of the key in place, or appends a new binding. -/
def dictSet {α : Type} : List (String × α) → String → α → List (String × α)
  | [], k, v => [(k, v)]
  | p :: rest, k, v => if p.1 = k then (p.1, v) :: rest else p :: dictSet rest k v

/-- Models fields.get(section, empty dict).get(key): the None-totalised nested
read used throughout the validator and the router. -/
def dGet (fields : FieldsDict) (sec key : String) : Option String :=
  match dictGet fields sec with
  | none => none
  | some m =>
    match dictGet m key with
    | none => none
    | some v => v

/-- Models the Python nested assignment fields[section][key] = value (in the
source the section always exists; on a missing section this is a no-op). -/
def setField (fields : FieldsDict) (sec key : String) (v : Option String) : FieldsDict :=
  fields.map (fun p => if p.1 = sec then (p.1, dictSet p.2 key v) else p)

/-- The key list of a dictionary. -/
def keysOf {α : Type} (m : List (String × α)) : List String := m.map Prod.fst

/-- The shape of a field set: its sections, each with its field-key list. -/
def shape (d : FieldsDict) : List (String × List String) :=
  d.map (fun p => (p.1, keysOf p.2))

/-- Python truthiness of an optional string: None and the empty string are
falsy. -/
def truthy : Option String → Bool
  | none => false
  | some s => s != ""

/-- Models the Python idiom (x or empty string) on an optional string. -/
def orEmpty : Option String → String
  | none => ""
  | some s => s

/-! ## The claim router (src/agents/router.py) -/

/-- Fast-track threshold, 25000 currency units (router.py line 13). -/
def FAST_TRACK_THRESHOLD : ℕ := 25000

/-- Fraud indicator keywords (router.py line 15). -/
def FRAUD_KEYWORDS : List String :=
  ["fraud", "fraudulent", "inconsistent", "staged", "suspicious", "fake", "fabricated"]

/-- Injury indicator keywords (router.py lines 17 and 18). -/
def INJURY_KEYWORDS : List String :=
  ["injury", "bodily injury", "personal injury", "medical", "hospitalization",
   "hospital", "death", "fatality", "wounded"]

/-- Floor of a rational, computably. -/
def ratFloor (q : ℚ) : ℤ := q.num.fdiv (q.den : ℤ)

/-- Rounds a rational to the nearest integer, ties to even, as the Python
fixed-point float format with zero decimals does. -/
def roundHalfEven (q : ℚ) : ℤ :=
  let f := ratFloor q
  if q - (f : ℚ) < 1 / 2 then f
  else if (1 : ℚ) / 2 < q - (f : ℚ) then f + 1
  else if f % 2 = 0 then f else f + 1

/-- Groups a reversed digit list into threes, least significant first. -/
def chunk3 : List Char → List (List Char)
  | [] => []
  | a :: b :: c :: rest@(_ :: _) => [a, b, c] :: chunk3 rest
  | xs => [xs]

/-- Decimal rendering of a natural number with thousands separators, the
Python comma format. -/
def fmtComma (n : ℕ) : String :=
  pyJoin "," (((chunk3 (toString n).data.reverse).map
    (fun g => (⟨g.reverse⟩ : String))).reverse)

/-- Models the Python float format with comma separator and zero decimals as
used in the router and validator message strings. -/
def fmtFloat0 : PyNum → String
  | .fin q => (if q < 0 then "-" else "") ++ fmtComma (roundHalfEven q).natAbs
  | .inf => "inf"
  | .ninf => "-inf"
  | .nan => "nan"

/-- Models the Python idiom xs.split(separator) last element, used by the
router to strip the section qualifier from a missing-field name. -/
def lastDotComponent (f : String) : String :=
  ((pySplitOnChar f '.').getLast?).getD ""

/-- ClaimRouter.route (router.py lines 24 to 75): the five-tier priority
cascade.  Returns the pair of route name and reasoning string. -/
def route (extracted_fields : FieldsDict) (missing_fields : List String) : String × String :=
  let description := pyLower (orEmpty (dGet extracted_fields "incidentInformation" "description"))
  let fraud_found := FRAUD_KEYWORDS.filter (fun kw => strContains description kw)
  if fraud_found ≠ [] then
    ("Investigation Flag",
      pyJoin ". " ["Description contains fraud-related keywords: " ++ pyJoin ", " fraud_found])
  else
    let claim_type := pyLower (orEmpty (dGet extracted_fields "otherFields" "claimType"))
    let desc_lower := pyLower description
    let injury_in_type := INJURY_KEYWORDS.any (fun kw => strContains claim_type kw)
    let injury_in_desc := INJURY_KEYWORDS.any (fun kw => strContains desc_lower kw)
    if injury_in_type || injury_in_desc then
      let wh := if injury_in_type then "claim type" else "description"
      ("Specialist Queue", pyJoin ". " ["Injury-related claim detected in " ++ wh])
    else if missing_fields ≠ [] then
      let field_names := missing_fields.map lastDotComponent
      ("Manual Review",
        pyJoin ". " ["Missing mandatory fields: " ++
          (pyJoin ", " field_names ++ (" (" ++ (toString missing_fields.length ++ " field(s))")))])
    else
      let est_damage := dGet extracted_fields "assetDetails" "estimatedDamage"
      if truthy est_damage then
        match parseAmount (orEmpty est_damage) with
        | some damage_val =>
          if pyLt damage_val (.fin (FAST_TRACK_THRESHOLD : ℚ)) then
            ("Fast-track",
              pyJoin ". " ["Estimated damage ₹" ++
                  (fmtFloat0 damage_val ++
                    (" is below fast-track threshold of ₹" ++ fmtComma FAST_TRACK_THRESHOLD)),
                "All mandatory fields are present"])
          else
            ("Standard Processing",
              pyJoin ". " ["Estimated damage ₹" ++
                  (fmtFloat0 damage_val ++
                    (" exceeds fast-track threshold of ₹" ++ fmtComma FAST_TRACK_THRESHOLD)),
                "All mandatory fields are present. Routed to standard processing"])
        | none =>
          ("Standard Processing",
            pyJoin ". " ["Could not parse estimated damage amount. Routing to standard processing"])
      else
        ("Standard Processing",
          pyJoin ". " ["All mandatory fields present. No special conditions detected"])

/-! ## The field validator (src/agents/validator.py) -/

/-- The mandatory schema (validator.py lines 10 to 16), in its fixed section
and field order. -/
def MANDATORY_FIELDS : List (String × List String) :=
  [("policyInformation", ["policyNumber", "policyholderName", "effectiveDates"]),
   ("incidentInformation", ["date", "time", "location", "description"]),
   ("involvedParties", ["claimant", "contactDetails"]),
   ("assetDetails", ["assetType", "assetId", "estimatedDamage"]),
   ("otherFields", ["claimType", "initialEstimate"])]

/-- A value is missing when it is absent or an empty or whitespace-only
string (validator.py line 38). -/
def isMissingValue : Option String → Bool
  | none => true
  | some s => pyStrip s == ""

/-- FieldValidator, method finding missing fields (validator.py lines 31 to 40). -/
def find_missing_fields (fields : FieldsDict) : List String :=
  MANDATORY_FIELDS.flatMap (fun sk =>
    sk.2.filterMap (fun key =>
      if isMissingValue (dGet fields sk.1 key) then some (sk.1 ++ ("." ++ key)) else none))

/-- A calendar date; the current moment passed to the validator is modelled by
its date, since the parsed incident date always carries a midnight time and
therefore compares after the current moment exactly when its date is strictly
later. -/
structure SimpleDate where
  year : ℕ
  month : ℕ
  day : ℕ
deriving DecidableEq, Repr

/-- Gregorian leap-year rule, as the Python datetime module applies it. -/
def isLeap (y : ℕ) : Bool := (y % 4 = 0 && y % 100 ≠ 0) || y % 400 = 0

/-- Number of days of a month, as validated by the Python datetime constructor. -/
def daysInMonth (y m : ℕ) : ℕ :=
  if m = 2 then (if isLeap y then 29 else 28)
  else if m = 4 ∨ m = 6 ∨ m = 9 ∨ m = 11 then 30 else 31

/-- Parses a one-or-two digit numeric field with values from 1 to hi, the
strptime pattern for months and days. -/
def numField2 (p : String) (hi : ℕ) : Option ℕ :=
  if p.data ≠ [] ∧ p.data.all Char.isDigit ∧ p.data.length ≤ 2 then
    if 1 ≤ natOfDigits p.data ∧ natOfDigits p.data ≤ hi then some (natOfDigits p.data) else none
  else none

/-- Parses a four-digit year, positive as the datetime constructor requires. -/
def yearField4 (p : String) : Option ℕ :=
  if p.data.all Char.isDigit ∧ p.data.length = 4 then
    if 1 ≤ natOfDigits p.data then some (natOfDigits p.data) else none
  else none

/-- Builds a date from year, month and day strings, validating the day against
the month as the datetime constructor does. -/
def mkDate (ys ms ds : String) : Option SimpleDate :=
  match yearField4 ys, numField2 ms 12, numField2 ds 31 with
  | some y, some m, some d => if d ≤ daysInMonth y m then some ⟨y, m, d⟩ else none
  | _, _, _ => none

/-- Models datetime.strptime restricted to the four formats the validator
tries. -/
def parseDateFmt (fmt s : String) : Option SimpleDate :=
  if fmt = "%m/%d/%Y" then
    match pySplitOnChar s '/' with
    | [ms, ds, ys] => mkDate ys ms ds
    | _ => none
  else if fmt = "%d/%m/%Y" then
    match pySplitOnChar s '/' with
    | [ds, ms, ys] => mkDate ys ms ds
    | _ => none
  else if fmt = "%Y-%m-%d" then
    match pySplitOnChar s '-' with
    | [ys, ms, ds] => mkDate ys ms ds
    | _ => none
  else if fmt = "%d-%m-%Y" then
    match pySplitOnChar s '-' with
    | [ds, ms, ys] => mkDate ys ms ds
    | _ => none
  else none

/-- The ordered date format list the validator tries (validator.py line 50). -/
def DATE_FORMATS : List String := ["%m/%d/%Y", "%d/%m/%Y", "%Y-%m-%d", "%d-%m-%Y"]

/-- Strictly-later comparison of dates: the parsed incident date (at midnight)
is after the current moment exactly when its date is lexicographically later
than the current date. -/
def dateAfter (a b : SimpleDate) : Bool :=
  if b.year < a.year then true
  else if a.year = b.year then
    if b.month < a.month then true
    else if a.month = b.month then decide (b.day < a.day)
    else false
  else false

/-- Future-incident-date check of the validator (validator.py lines 47 to 59):
first date format that parses wins; a future date is flagged; unparseable
dates are silently ignored. -/
def dateIssuesOf (now : SimpleDate) (fields : FieldsDict) : List String :=
  let incident_date := dGet fields "incidentInformation" "date"
  if truthy incident_date then
    match DATE_FORMATS.findSome? (fun fmt => parseDateFmt fmt (orEmpty incident_date)) with
    | some d => if dateAfter d now then ["Incident date is in the future"] else []
    | none => []
  else []

/-- Non-positive-damage check of the validator (validator.py lines 61 to 71). -/
def damageIssuesOf (fields : FieldsDict) : List String :=
  let est_damage := dGet fields "assetDetails" "estimatedDamage"
  if truthy est_damage then
    match parseAmount (orEmpty est_damage) with
    | some damage_val =>
      (if pyLt damage_val (.fin 0) then ["Estimated damage amount is negative"] else []) ++
      (if pyEq damage_val (.fin 0) then ["Estimated damage amount is zero"] else [])
    | none => ["Estimated damage is not a valid number"]
  else []

/-- The message reported by the estimate-discrepancy check, as the source
formats it. -/
def discrepancyMsg (dmg est : PyNum) : String :=
  "Large discrepancy between estimated damage (₹" ++
    (fmtFloat0 dmg ++ (") and initial estimate (₹" ++ (fmtFloat0 est ++ ")")))

/-- Estimate-discrepancy check of the validator (validator.py lines 73 to 84):
only when both amounts parse and are strictly positive, flag when the relative
difference exceeds one half. -/
def discrepancyIssuesOf (fields : FieldsDict) : List String :=
  let est_damage := dGet fields "assetDetails" "estimatedDamage"
  let init_est := dGet fields "otherFields" "initialEstimate"
  if truthy est_damage && truthy init_est then
    match parseAmount (orEmpty est_damage), parseAmount (orEmpty init_est) with
    | some dmg, some est =>
      if pyLt (.fin 0) dmg && pyLt (.fin 0) est then
        if pyLt (.fin (1 / 2)) (pyDiv (pyAbs (pySub dmg est)) (pyMax dmg est)) then
          [discrepancyMsg dmg est]
        else []
      else []
    | _, _ => []
  else []

/-- Policy-number plausibility check of the validator (validator.py lines 86
to 89). -/
def policyIssuesOf (fields : FieldsDict) : List String :=
  let policy_num := dGet fields "policyInformation" "policyNumber"
  if truthy policy_num ∧ (pyStrip (orEmpty policy_num)).data.length < 3 then
    ["Policy number appears too short"]
  else []

/-- FieldValidator, method finding inconsistencies (validator.py lines 42 to
91): the four checks in their fixed order. -/
def find_inconsistencies (now : SimpleDate) (fields : FieldsDict) : List String :=
  dateIssuesOf now fields ++ (damageIssuesOf fields ++ (discrepancyIssuesOf fields ++ policyIssuesOf fields))

/-- FieldValidator.validate (validator.py lines 22 to 29): the pair of missing
fields and inconsistencies. -/
def validate (now : SimpleDate) (fields : FieldsDict) : List String × List String :=
  (find_missing_fields fields, find_inconsistencies now fields)

/-- State-passing form of a call to FieldValidator.validate: the Python method
receives the (mutable) field dictionary and returns the result pair; the first
component below is the state of that dictionary when the call returns.  The
translation of the method body contains no assignment into the dictionary, so
the post-state is the argument itself. -/
def validateCall (now : SimpleDate) (fields : FieldsDict) :
    FieldsDict × (List String × List String) :=
  (fields, validate now fields)

/-! ## The rule-based extraction engine (src/agents/llm_processor.py)

The regular-expression engine of the Python standard library is an external
collaborator: the extraction method only combines the results of a fixed set
of pattern searches.  It is modelled by an oracle record holding one function
per pattern (or per findall / sub / split operation); every theorem about the
extraction engine is universally quantified over this oracle, so it holds for
every behaviour of the regex engine.  For searches whose match object is used
through group(1) the oracle returns the text of that group; where the source
also uses the match start offset the oracle returns the offset as well. -/

/-- The empty five-section, sixteen-slot field structure
(llm_processor.py lines 11 to 40). -/
def get_empty_fields : FieldsDict :=
  [("policyInformation",
     [("policyNumber", none), ("policyholderName", none), ("effectiveDates", none)]),
   ("incidentInformation",
     [("date", none), ("time", none), ("location", none), ("description", none)]),
   ("involvedParties",
     [("claimant", none), ("thirdParties", none), ("contactDetails", none)]),
   ("assetDetails",
     [("assetType", none), ("assetId", none), ("estimatedDamage", none)]),
   ("otherFields",
     [("claimType", none), ("attachments", none), ("initialEstimate", none)])]

/-- Oracle for the regular-expression searches of the extraction method; one
field per pattern occurrence in llm_processor.py lines 125 to 342. -/
structure RegexOracle where
  policyNumberUpper : String → Option String
  policyNumberLabel : String → Option String
  policyholderLine : String → Option String
  dateRange : String → Option (ℕ × String)
  insuredName : String → Option String
  nameOfInsured : String → Option String
  dateTimeOfLoss : String → Option (String × String)
  dateOfLoss : String → Option String
  dateOfLossLabel : String → Option String
  bareTime : String → Option String
  locationOfLoss : String → Option String
  locationLabel : String → Option String
  descriptionOfAccident : String → Option String
  descriptionLabel : String → Option String
  reportedBy : String → Option String
  subDates : String → String
  subParens : String → String
  thirdPartyName : String → Option String
  contactPhone : String → Option String
  emailAddress : String → Option String
  findPhones : String → List String
  findEmails : String → List String
  assetTypeLine : String → Option String
  splitWide : String → List String
  vinLine : String → Option String
  vinToken : String → Option String
  modelVin : String → Option String
  estDamagePair : String → Option (String × Option String)
  estDamageLabel : String → Option String
  claimTypeAttachments : String → Option String
  attachToken : String → Option (ℕ × String)
  claimTypeLabel : String → Option String
  attachmentsLabel : String → Option String
  initialEstimateLabel : String → Option String

/-- Policy-number rules (llm_processor.py lines 141 to 147). -/
def policyNumberPart (o : RegexOracle) (text : String) (fields : FieldsDict) : FieldsDict :=
  match o.policyNumberUpper text with
  | some g => setField fields "policyInformation" "policyNumber" (some (pyStrip g))
  | none =>
    match o.policyNumberLabel text with
    | some g => setField fields "policyInformation" "policyNumber" (some (pyStrip g))
    | none => fields

/-- Policyholder name and effective dates, which may share one line
(llm_processor.py lines 151 to 169). -/
def policyholderPart (o : RegexOracle) (text : String) (fields : FieldsDict) : FieldsDict :=
  match o.policyholderLine text with
  | some g =>
    let line := pyStrip g
    match o.dateRange line with
    | some sg =>
      let name := pyStrip (pyTake line sg.1)
      let fields := setField fields "policyInformation" "effectiveDates" (some (pyStrip sg.2))
      if name ≠ "" ∧ 2 < name.data.length then
        setField fields "policyInformation" "policyholderName" (some name)
      else fields
    | none =>
      let name := pyStrip line
      if name ≠ "" ∧ 2 < name.data.length then
        setField fields "policyInformation" "policyholderName" (some name)
      else fields
  | none =>
    match o.insuredName text with
    | some g => setField fields "policyInformation" "policyholderName" (some (pyStrip g))
    | none =>
      match o.nameOfInsured text with
      | some g => setField fields "policyInformation" "policyholderName" (some (pyStrip g))
      | none => fields

/-- Effective-dates fallback over the whole text (llm_processor.py lines 172
to 175). -/
def effectiveDatesFallbackPart (o : RegexOracle) (text : String) (fields : FieldsDict) :
    FieldsDict :=
  if truthy (dGet fields "policyInformation" "effectiveDates") then fields
  else
    match o.dateRange text with
    | some sg => setField fields "policyInformation" "effectiveDates" (some (pyStrip sg.2))
    | none => fields

/-- Date and time of loss (llm_processor.py lines 183 to 199). -/
def dateTimePart (o : RegexOracle) (text : String) (fields : FieldsDict) : FieldsDict :=
  match o.dateTimeOfLoss text with
  | some gg =>
    let fields := setField fields "incidentInformation" "date" (some (pyStrip gg.1))
    setField fields "incidentInformation" "time" (some (pyStrip gg.2))
  | none =>
    let fields :=
      match o.dateOfLoss text with
      | some g => setField fields "incidentInformation" "date" (some (pyStrip g))
      | none =>
        match o.dateOfLossLabel text with
        | some g => setField fields "incidentInformation" "date" (some (pyStrip g))
        | none => fields
    match o.bareTime text with
    | some g =>
      if ¬ truthy (dGet fields "incidentInformation" "time") then
        setField fields "incidentInformation" "time" (some (pyStrip g))
      else fields
    | none => fields

/-- Location of loss (llm_processor.py lines 202 to 208). -/
def locationPart (o : RegexOracle) (text : String) (fields : FieldsDict) : FieldsDict :=
  match o.locationOfLoss text with
  | some g => setField fields "incidentInformation" "location" (some (pyStrip g))
  | none =>
    match o.locationLabel text with
    | some g => setField fields "incidentInformation" "location" (some (pyStrip g))
    | none => fields

/-- Description of accident, collapsed to single-spaced text
(llm_processor.py lines 211 to 218). -/
def descriptionPart (o : RegexOracle) (text : String) (fields : FieldsDict) : FieldsDict :=
  match o.descriptionOfAccident text with
  | some g =>
    setField fields "incidentInformation" "description" (some (pyCollapseWs (pyStrip g)))
  | none =>
    match o.descriptionLabel text with
    | some g =>
      setField fields "incidentInformation" "description" (some (pyCollapseWs (pyStrip g)))
    | none => fields

/-- Claimant from the reported-by line, with dates and parentheticals
stripped, defaulting to the policyholder name (llm_processor.py lines 225 to
234). -/
def claimantPart (o : RegexOracle) (text : String) (fields : FieldsDict) : FieldsDict :=
  let fields :=
    match o.reportedBy text with
    | some g =>
      let name := pyStrip g
      let name := pyStrip (o.subDates name)
      let name := pyStrip (o.subParens name)
      if name ≠ "" ∧ 2 < name.data.length then
        setField fields "involvedParties" "claimant" (some name)
      else fields
    | none => fields
  if ¬ truthy (dGet fields "involvedParties" "claimant") then
    setField fields "involvedParties" "claimant" (dGet fields "policyInformation" "policyholderName")
  else fields

/-- Third-party line: explicit negative markers containing the words none or
n/a are stored as present values (llm_processor.py lines 237 to 243). -/
def thirdPartyPart (o : RegexOracle) (text : String) (fields : FieldsDict) : FieldsDict :=
  match o.thirdPartyName text with
  | some g =>
    let line := pyStrip g
    if ¬ (pyLower line ∈ ["none", "n/a", "na", "", "none - single vehicle accident"]) then
      setField fields "involvedParties" "thirdParties" (some line)
    else if strContains (pyLower line) "none" || strContains (pyLower line) "n/a" then
      setField fields "involvedParties" "thirdParties" (some line)
    else fields
  | none => fields

/-- Contact details: labeled phone and email lines, else a whole-document
scan, joined with a comma (llm_processor.py lines 246 to 261). -/
def contactPart (o : RegexOracle) (text : String) (fields : FieldsDict) : FieldsDict :=
  let contacts : List String := []
  let contacts :=
    match o.contactPhone text with
    | some g => contacts ++ [pyStrip g]
    | none => contacts
  let contacts :=
    match o.emailAddress text with
    | some g => contacts ++ [pyStrip g]
    | none => contacts
  let contacts :=
    if contacts = [] then
      let contacts :=
        match o.findPhones text with
        | p :: _ => [pyStrip p]
        | [] => []
      match o.findEmails text with
      | e :: _ => contacts ++ [e]
      | [] => contacts
    else contacts
  if contacts ≠ [] then
    setField fields "involvedParties" "contactDetails" (some (pyJoin ", " contacts))
  else fields

/-- Asset type: first piece of the line before a run of two or more spaces
(llm_processor.py lines 268 to 273). -/
def assetTypePart (o : RegexOracle) (text : String) (fields : FieldsDict) : FieldsDict :=
  match o.assetTypeLine text with
  | some g =>
    let line := pyStrip g
    match o.splitWide line with
    | p :: _ => setField fields "assetDetails" "assetType" (some (pyStrip p))
    | [] => fields
  | none => fields

/-- Asset identifier from the VIN line, with a model-line fallback
(llm_processor.py lines 276 to 286). -/
def assetIdPart (o : RegexOracle) (text : String) (fields : FieldsDict) : FieldsDict :=
  let fields :=
    match o.vinLine text with
    | some g =>
      let line := pyStrip g
      match o.vinToken line with
      | some v => setField fields "assetDetails" "assetId" (some (pyStrip v))
      | none => fields
    | none => fields
  if ¬ truthy (dGet fields "assetDetails" "assetId") then
    match o.modelVin text with
    | some g => setField fields "assetDetails" "assetId" (some (pyStrip g))
    | none => fields
  else fields

/-- Estimated damage and co-located initial estimate, thousands separators
stripped (llm_processor.py lines 290 to 298). -/
def estimatedDamagePart (o : RegexOracle) (text : String) (fields : FieldsDict) : FieldsDict :=
  match o.estDamagePair text with
  | some gg =>
    let fields := setField fields "assetDetails" "estimatedDamage"
      (some (pyReplace (pyStrip gg.1) "," ""))
    match gg.2 with
    | some g2 =>
      setField fields "otherFields" "initialEstimate" (some (pyReplace (pyStrip g2) "," ""))
    | none => fields
  | none =>
    match o.estDamageLabel text with
    | some g =>
      setField fields "assetDetails" "estimatedDamage" (some (pyReplace (pyStrip g) "," ""))
    | none => fields

/-- Claim type and attachments, split at a known attachment keyword or at a
run of spaces (llm_processor.py lines 306 to 331). -/
def claimTypeAttachmentsPart (o : RegexOracle) (text : String) (fields : FieldsDict) :
    FieldsDict :=
  match o.claimTypeAttachments text with
  | some g =>
    let line := pyStrip g
    match o.attachToken line with
    | some sg =>
      let ct := pyStrip (pyRstripChar (pyStrip (pyTake line sg.1)) '-')
      let att := pyStrip sg.2
      let fields := if ct ≠ "" then setField fields "otherFields" "claimType" (some ct) else fields
      if att ≠ "" then setField fields "otherFields" "attachments" (some att) else fields
    | none =>
      match o.splitWide line with
      | p :: rest =>
        let fields := setField fields "otherFields" "claimType" (some (pyStrip p))
        match rest with
        | p1 :: _ => setField fields "otherFields" "attachments" (some (pyStrip p1))
        | [] => fields
      | [] => fields
  | none =>
    let fields :=
      match o.claimTypeLabel text with
      | some g => setField fields "otherFields" "claimType" (some (pyStrip g))
      | none => fields
    match o.attachmentsLabel text with
    | some g => setField fields "otherFields" "attachments" (some (pyStrip g))
    | none => fields

/-- Initial-estimate fallback label search (llm_processor.py lines 334 to
340). -/
def initialEstimateFallbackPart (o : RegexOracle) (text : String) (fields : FieldsDict) :
    FieldsDict :=
  if ¬ truthy (dGet fields "otherFields" "initialEstimate") then
    match o.initialEstimateLabel text with
    | some g =>
      setField fields "otherFields" "initialEstimate" (some (pyReplace (pyStrip g) "," ""))
    | none => fields
  else fields

/-- LLMProcessor, regex extraction method (llm_processor.py lines 125 to
342): the sequential composition of the per-field rule blocks, starting from
the empty field structure. -/
def extract_with_regex (o : RegexOracle) (text : String) : FieldsDict :=
  initialEstimateFallbackPart o text
    (claimTypeAttachmentsPart o text
      (estimatedDamagePart o text
        (assetIdPart o text
          (assetTypePart o text
            (contactPart o text
              (thirdPartyPart o text
                (claimantPart o text
                  (descriptionPart o text
                    (locationPart o text
                      (dateTimePart o text
                        (effectiveDatesFallbackPart o text
                          (policyholderPart o text
                            (policyNumberPart o text get_empty_fields)))))))))))))

/-- The sixteen section-and-field slots of the schema. -/
def fieldPairs : List (String × String) :=
  [("policyInformation", "policyNumber"), ("policyInformation", "policyholderName"),
   ("policyInformation", "effectiveDates"),
   ("incidentInformation", "date"), ("incidentInformation", "time"),
   ("incidentInformation", "location"), ("incidentInformation", "description"),
   ("involvedParties", "claimant"), ("involvedParties", "thirdParties"),
   ("involvedParties", "contactDetails"),
   ("assetDetails", "assetType"), ("assetDetails", "assetId"),
   ("assetDetails", "estimatedDamage"),
   ("otherFields", "claimType"), ("otherFields", "attachments"),
   ("otherFields", "initialEstimate")]

/-- The canonical shape of an extracted field set: five sections in order,
each with its field keys in order. -/
def canonShape : List (String × List String) :=
  [("policyInformation", ["policyNumber", "policyholderName", "effectiveDates"]),
   ("incidentInformation", ["date", "time", "location", "description"]),
   ("involvedParties", ["claimant", "thirdParties", "contactDetails"]),
   ("assetDetails", ["assetType", "assetId", "estimatedDamage"]),
   ("otherFields", ["claimType", "attachments", "initialEstimate"])]

/-- A trivial regex-engine behaviour for concrete evaluation: no pattern ever
matches, substitutions are the identity and list searches are empty. -/
def noneOracle : RegexOracle where
  policyNumberUpper := fun _ => none
  policyNumberLabel := fun _ => none
  policyholderLine := fun _ => none
  dateRange := fun _ => none
  insuredName := fun _ => none
  nameOfInsured := fun _ => none
  dateTimeOfLoss := fun _ => none
  dateOfLoss := fun _ => none
  dateOfLossLabel := fun _ => none
  bareTime := fun _ => none
  locationOfLoss := fun _ => none
  locationLabel := fun _ => none
  descriptionOfAccident := fun _ => none
  descriptionLabel := fun _ => none
  reportedBy := fun _ => none
  subDates := fun s => s
  subParens := fun s => s
  thirdPartyName := fun _ => none
  contactPhone := fun _ => none
  emailAddress := fun _ => none
  findPhones := fun _ => []
  findEmails := fun _ => []
  assetTypeLine := fun _ => none
  splitWide := fun _ => []
  vinLine := fun _ => none
  vinToken := fun _ => none
  modelVin := fun _ => none
  estDamagePair := fun _ => none
  estDamageLabel := fun _ => none
  claimTypeAttachments := fun _ => none
  attachToken := fun _ => none
  claimTypeLabel := fun _ => none
  attachmentsLabel := fun _ => none
  initialEstimateLabel := fun _ => none

/-! ## Theorems settling the specification claims, with their supporting lemmas -/

/-! helper lemmas -/

theorem string_data_app (s t : String) : (s ++ t).data = s.data ++ t.data := rfl

theorem head_append_left {s : String} (t : String) {c : Char}
    (hs : s.data.head? = some c) : (s ++ t).data.head? = some c := by
  rw [string_data_app]
  cases h : s.data with
  | nil => rw [h] at hs; cases hs
  | cons a as => rw [h] at hs; simpa using hs

theorem ne_of_head {s t : String} {c c' : Char}
    (hs : s.data.head? = some c) (ht : t.data.head? = some c') (hne : c ≠ c') : s ≠ t := by
  intro he
  subst he
  rw [hs] at ht
  exact hne (Option.some.inj ht)

theorem ne_empty_of_head {s : String} {c : Char} (hs : s.data.head? = some c) : s ≠ "" := by
  intro he
  subst he
  cases hs

/-! C3 -/
/-- C3: for the extracted field set in which all sixteen slots carry the absent
marker, the validator reports as missing exactly the fourteen qualified names of
the mandatory schema, in the fixed section and field order. -/
theorem c3_all_absent (now : SimpleDate) :
    (validate now get_empty_fields).1 =
      ["policyInformation.policyNumber", "policyInformation.policyholderName",
       "policyInformation.effectiveDates", "incidentInformation.date",
       "incidentInformation.time", "incidentInformation.location",
       "incidentInformation.description", "involvedParties.claimant",
       "involvedParties.contactDetails", "assetDetails.assetType",
       "assetDetails.assetId", "assetDetails.estimatedDamage",
       "otherFields.claimType", "otherFields.initialEstimate"] := by
  show find_missing_fields get_empty_fields = _
  decide

/-! C5 -/
/-- C5: for every extracted field set and every missing-fields list, the router
returns exactly one route name drawn from the five-element enumeration together
with a non-empty reasoning string; the embedded function is total, so the call
never raises. -/
theorem c5_route_total (d : FieldsDict) (missing : List String) :
    (route d missing).1 ∈
      ["Investigation Flag", "Specialist Queue", "Manual Review", "Fast-track",
       "Standard Processing"] ∧ (route d missing).2 ≠ "" := by
  simp only [route]
  repeat' split
  all_goals refine ⟨by simp, ?_⟩
  all_goals simp only [pyJoin]
  all_goals
    first
      | exact ne_empty_of_head (c := 'D') (head_append_left _ rfl)
      | exact ne_empty_of_head (c := 'I') (head_append_left _ rfl)
      | exact ne_empty_of_head (c := 'M') (head_append_left _ rfl)
      | exact ne_empty_of_head (c := 'E') (head_append_left _ (head_append_left _ rfl))
      | exact ne_empty_of_head (c := 'C') rfl
      | exact ne_empty_of_head (c := 'A') rfl

/-! C2 -/
/-- C2: for every extracted field set whose incident description contains a
fraud-indicator keyword case-insensitively, the router returns Investigation
Flag, regardless of the claim type, the missing-fields list and the damage
amount. -/
theorem c2_fraud_investigation (d : FieldsDict) (missing : List String) (kw : String)
    (hkw : kw ∈ FRAUD_KEYWORDS)
    (hc : strContains (pyLower (orEmpty (dGet d "incidentInformation" "description"))) kw = true) :
    (route d missing).1 = "Investigation Flag" := by
  have hne : FRAUD_KEYWORDS.filter
      (fun k => strContains (pyLower (orEmpty (dGet d "incidentInformation" "description"))) k) ≠ [] :=
    List.ne_nil_of_mem (List.mem_filter.mpr ⟨hkw, hc⟩)
  unfold route
  rw [if_pos hne]

theorem c2_fraud_investigation_witness :
    (route [("incidentInformation", [("description", some "Looks STAGED to me")]),
            ("otherFields", [("claimType", some "Bodily Injury")])] []).1
      = "Investigation Flag" :=
  c2_fraud_investigation _ _ "staged" (by decide) (by decide)

/-! C1 -/
/-- C1: with no missing fields, no fraud keyword in the description, no injury
keyword in the claim type or description, and a present estimated-damage value,
the router routes Fast-track when the normalised amount parses strictly below
25000, Standard Processing when it parses at or above 25000, and Standard
Processing with a reasoning noting the unparseable amount when parsing fails. -/
theorem c1_threshold (d : FieldsDict) (s : String)
    (hfraud : ∀ kw ∈ FRAUD_KEYWORDS,
      strContains (pyLower (orEmpty (dGet d "incidentInformation" "description"))) kw = false)
    (hinjt : ∀ kw ∈ INJURY_KEYWORDS,
      strContains (pyLower (orEmpty (dGet d "otherFields" "claimType"))) kw = false)
    (hinjd : ∀ kw ∈ INJURY_KEYWORDS,
      strContains (pyLower (pyLower (orEmpty (dGet d "incidentInformation" "description")))) kw = false)
    (hest : dGet d "assetDetails" "estimatedDamage" = some s) (hs : s ≠ "") :
    (∀ q : ℚ, parseAmount s = some (.fin q) → q < 25000 → (route d []).1 = "Fast-track") ∧
    (∀ q : ℚ, parseAmount s = some (.fin q) → 25000 ≤ q →
      (route d []).1 = "Standard Processing") ∧
    (parseAmount s = none →
      route d [] =
        ("Standard Processing",
         "Could not parse estimated damage amount. Routing to standard processing")) := by
  have hff : FRAUD_KEYWORDS.filter
      (fun kw => strContains (pyLower (orEmpty (dGet d "incidentInformation" "description"))) kw) = [] := by
    rw [List.filter_eq_nil_iff]
    intro kw hkw
    simp [hfraud kw hkw]
  have hit : (INJURY_KEYWORDS.any fun kw =>
      strContains (pyLower (orEmpty (dGet d "otherFields" "claimType"))) kw) = false := by
    rw [List.any_eq_false]
    intro kw hkw
    simp [hinjt kw hkw]
  have hid : (INJURY_KEYWORDS.any fun kw =>
      strContains (pyLower (pyLower (orEmpty (dGet d "incidentInformation" "description")))) kw) = false := by
    rw [List.any_eq_false]
    intro kw hkw
    simp [hinjd kw hkw]
  simp only [route]
  rw [if_neg (not_not_intro hff), if_neg (by simp [hit, hid]),
    if_neg (by simp : ¬(([] : List String) ≠ [])), hest,
    if_pos (by simpa [truthy] using hs : truthy (some s) = true)]
  simp only [orEmpty]
  refine ⟨?_, ?_, ?_⟩
  · intro q hpq hlt
    rw [hpq]
    simp [pyLt, FAST_TRACK_THRESHOLD, hlt]
  · intro q hpq hge
    rw [hpq]
    simp [pyLt, FAST_TRACK_THRESHOLD, not_lt.mpr hge]
  · intro hpn
    rw [hpn]
    simp [pyJoin]

theorem c1_threshold_witness :
    (route [("incidentInformation", [("description", some "Minor collision with a road divider")]),
            ("assetDetails", [("estimatedDamage", some "28,500")]),
            ("otherFields", [("claimType", some "Auto - Property Damage")])] []).1
        = "Standard Processing" ∧
    (route [("incidentInformation", [("description", some "Minor collision with a road divider")]),
            ("assetDetails", [("estimatedDamage", some "8,500")]),
            ("otherFields", [("claimType", some "Auto - Property Damage")])] []).1
        = "Fast-track" ∧
    (route [("incidentInformation", [("description", some "Minor collision with a road divider")]),
            ("assetDetails", [("estimatedDamage", some "25000")]),
            ("otherFields", [("claimType", some "Auto - Property Damage")])] []).1
        = "Standard Processing" ∧
    route [("incidentInformation", [("description", some "Minor collision with a road divider")]),
           ("assetDetails", [("estimatedDamage", some "approx 30k")]),
           ("otherFields", [("claimType", some "Auto - Property Damage")])] []
        = ("Standard Processing",
           "Could not parse estimated damage amount. Routing to standard processing") :=
  ⟨(c1_threshold _ "28,500" (by decide) (by decide) (by decide) (by decide)
      (by decide)).2.1 28500 (by decide) (by norm_num),
   (c1_threshold _ "8,500" (by decide) (by decide) (by decide) (by decide)
      (by decide)).1 8500 (by decide) (by norm_num),
   (c1_threshold _ "25000" (by decide) (by decide) (by decide) (by decide)
      (by decide)).2.1 25000 (by decide) (by norm_num),
   (c1_threshold _ "approx 30k" (by decide) (by decide) (by decide) (by decide)
      (by decide)).2.2 (by decide)⟩

/-! validator block lemmas -/

theorem dateIssues_mem {now : SimpleDate} {d : FieldsDict} :
    ∀ x ∈ dateIssuesOf now d, x = "Incident date is in the future" := by
  intro x hx
  simp only [dateIssuesOf] at hx
  repeat' split at hx
  all_goals simp_all

theorem damageIssues_mem {d : FieldsDict} :
    ∀ x ∈ damageIssuesOf d,
      x = "Estimated damage amount is negative" ∨ x = "Estimated damage amount is zero" ∨
      x = "Estimated damage is not a valid number" := by
  intro x hx
  simp only [damageIssuesOf] at hx
  split at hx
  · split at hx
    · rw [List.mem_append] at hx
      rcases hx with hx | hx <;> split at hx <;>
        first
          | exact absurd hx (List.not_mem_nil x)
          | (rw [List.mem_singleton] at hx; exact Or.inl hx)
          | (rw [List.mem_singleton] at hx; exact Or.inr (Or.inl hx))
    · rw [List.mem_singleton] at hx
      exact Or.inr (Or.inr hx)
  · exact absurd hx (List.not_mem_nil x)

theorem discrepancyIssues_head {d : FieldsDict} :
    ∀ x ∈ discrepancyIssuesOf d, x.data.head? = some 'L' := by
  intro x hx
  simp only [discrepancyIssuesOf] at hx
  repeat' split at hx
  all_goals simp_all
  subst hx
  exact head_append_left _ rfl

theorem policyIssues_mem {d : FieldsDict} :
    ∀ x ∈ policyIssuesOf d, x = "Policy number appears too short" := by
  intro x hx
  simp only [policyIssuesOf] at hx
  repeat' split at hx
  all_goals simp_all

/-! C7 -/

theorem mem_incons_iff_damage (now : SimpleDate) (d : FieldsDict) (t : String)
    (h1 : t ≠ "Incident date is in the future")
    (h2 : t ≠ "Policy number appears too short")
    (h3 : t.data.head? ≠ some 'L') :
    t ∈ find_inconsistencies now d ↔ t ∈ damageIssuesOf d := by
  unfold find_inconsistencies
  simp only [List.mem_append]
  constructor
  · rintro (h | h | h | h)
    · exact absurd (dateIssues_mem t h) h1
    · exact h
    · exact absurd (discrepancyIssues_head t h) h3
    · exact absurd (policyIssues_mem t h) h2
  · intro h
    exact Or.inr (Or.inl h)

theorem damageIssues_eq (d : FieldsDict) (s : String)
    (hest : dGet d "assetDetails" "estimatedDamage" = some s) (hs : s ≠ "") :
    damageIssuesOf d =
      match parseAmount s with
      | some v =>
        (if pyLt v (.fin 0) = true then ["Estimated damage amount is negative"] else []) ++
        (if pyEq v (.fin 0) = true then ["Estimated damage amount is zero"] else [])
      | none => ["Estimated damage is not a valid number"] := by
  simp only [damageIssuesOf, hest, orEmpty]
  rw [if_pos (show truthy (some s) = true by simpa [truthy] using hs)]

/-- C7: for every extracted field set whose estimated-damage slot holds a
non-empty string, the validator flags the negative-amount message exactly when
the normalised string parses strictly negative, the zero-amount message exactly
when it parses to exactly zero, and the not-a-valid-number message exactly when
parsing fails; the embedded checks are total and never raise. -/
theorem c7_damage_flags (now : SimpleDate) (d : FieldsDict) (s : String)
    (hest : dGet d "assetDetails" "estimatedDamage" = some s) (hs : s ≠ "") :
    ("Estimated damage amount is negative" ∈ (validate now d).2 ↔
      ∃ v, parseAmount s = some v ∧ pyLt v (.fin 0) = true) ∧
    ("Estimated damage amount is zero" ∈ (validate now d).2 ↔
      ∃ v, parseAmount s = some v ∧ pyEq v (.fin 0) = true) ∧
    ("Estimated damage is not a valid number" ∈ (validate now d).2 ↔ parseAmount s = none) := by
  refine ⟨?_, ?_, ?_⟩
  · show _ ∈ find_inconsistencies now d ↔ _
    rw [mem_incons_iff_damage now d _ (by decide) (by decide) (by decide),
      damageIssues_eq d s hest hs]
    cases hpm : parseAmount s with
    | some v =>
      dsimp only
      by_cases hlt : pyLt v (.fin 0) = true
      · rw [if_pos hlt]
        exact ⟨fun _ => ⟨v, rfl, hlt⟩,
          fun _ => List.mem_append.mpr (Or.inl (List.mem_singleton.mpr rfl))⟩
      · rw [if_neg hlt]
        constructor
        · intro h
          rw [List.nil_append] at h
          by_cases heq : pyEq v (.fin 0) = true
          · rw [if_pos heq, List.mem_singleton] at h
            exact absurd h (by decide)
          · rw [if_neg heq] at h
            exact absurd h (List.not_mem_nil _)
        · rintro ⟨v', hv', hlt'⟩
          rw [Option.some.injEq] at hv'
          rw [← hv'] at hlt'
          exact absurd hlt' hlt
    | none =>
      dsimp only
      constructor
      · intro h
        rw [List.mem_singleton] at h
        exact absurd h (by decide)
      · rintro ⟨v', hv', _⟩
        cases hv'
  · show _ ∈ find_inconsistencies now d ↔ _
    rw [mem_incons_iff_damage now d _ (by decide) (by decide) (by decide),
      damageIssues_eq d s hest hs]
    cases hpm : parseAmount s with
    | some v =>
      dsimp only
      by_cases heq : pyEq v (.fin 0) = true
      · rw [if_pos heq]
        exact ⟨fun _ => ⟨v, rfl, heq⟩,
          fun _ => List.mem_append.mpr (Or.inr (List.mem_singleton.mpr rfl))⟩
      · rw [if_neg heq]
        constructor
        · intro h
          rw [List.mem_append] at h
          rcases h with h | h
          · by_cases hlt : pyLt v (.fin 0) = true
            · rw [if_pos hlt, List.mem_singleton] at h
              exact absurd h (by decide)
            · rw [if_neg hlt] at h
              exact absurd h (List.not_mem_nil _)
          · exact absurd h (List.not_mem_nil _)
        · rintro ⟨v', hv', heq'⟩
          rw [Option.some.injEq] at hv'
          rw [← hv'] at heq'
          exact absurd heq' heq
    | none =>
      dsimp only
      constructor
      · intro h
        rw [List.mem_singleton] at h
        exact absurd h (by decide)
      · rintro ⟨v', hv', _⟩
        cases hv'
  · show _ ∈ find_inconsistencies now d ↔ _
    rw [mem_incons_iff_damage now d _ (by decide) (by decide) (by decide),
      damageIssues_eq d s hest hs]
    cases hpm : parseAmount s with
    | some v =>
      dsimp only
      constructor
      · intro h
        rw [List.mem_append] at h
        rcases h with h | h
        · by_cases hlt : pyLt v (.fin 0) = true
          · rw [if_pos hlt, List.mem_singleton] at h
            exact absurd h (by decide)
          · rw [if_neg hlt] at h
            exact absurd h (List.not_mem_nil _)
        · by_cases heq : pyEq v (.fin 0) = true
          · rw [if_pos heq, List.mem_singleton] at h
            exact absurd h (by decide)
          · rw [if_neg heq] at h
            exact absurd h (List.not_mem_nil _)
      · intro h
        cases h
    | none =>
      dsimp only
      exact ⟨fun _ => rfl, fun _ => List.mem_singleton.mpr rfl⟩

theorem c7_damage_flags_witness :
    ("Estimated damage amount is negative" ∈
      (validate ⟨2025, 10, 12⟩ [("assetDetails", [("estimatedDamage", some "-500")])]).2) ∧
    ("Estimated damage amount is zero" ∈
      (validate ⟨2025, 10, 12⟩ [("assetDetails", [("estimatedDamage", some "0")])]).2) ∧
    ("Estimated damage is not a valid number" ∈
      (validate ⟨2025, 10, 12⟩ [("assetDetails", [("estimatedDamage", some "unknown")])]).2) :=
  ⟨(c7_damage_flags ⟨2025, 10, 12⟩ _ "-500" (by decide) (by decide)).1.mpr
      ⟨.fin (-500), by decide, by decide⟩,
   (c7_damage_flags ⟨2025, 10, 12⟩ _ "0" (by decide) (by decide)).2.1.mpr
      ⟨.fin 0, by decide, by decide⟩,
   (c7_damage_flags ⟨2025, 10, 12⟩ _ "unknown" (by decide) (by decide)).2.2.mpr (by decide)⟩

/-! C4 -/

theorem pyMax_fin (a b : ℚ) : pyMax (.fin a) (.fin b) = .fin (max a b) := by
  simp only [pyMax, pyLt]
  split
  · next h => rw [max_eq_right (le_of_lt (of_decide_eq_true h))]
  · next h => rw [max_eq_left (le_of_not_lt (of_decide_eq_false (Bool.of_not_eq_true h)))]

theorem discrepancyMsg_head (a b : PyNum) : (discrepancyMsg a b).data.head? = some 'L' := by
  unfold discrepancyMsg
  exact head_append_left _ rfl

theorem mem_incons_iff_discr (now : SimpleDate) (d : FieldsDict) (t : String)
    (ht : t.data.head? = some 'L') :
    t ∈ find_inconsistencies now d ↔ t ∈ discrepancyIssuesOf d := by
  unfold find_inconsistencies
  simp only [List.mem_append]
  constructor
  · rintro (h | h | h | h)
    · rw [dateIssues_mem t h] at ht
      exact absurd ht (by decide)
    · rcases damageIssues_mem t h with h1 | h1 | h1 <;> (rw [h1] at ht; exact absurd ht (by decide))
    · exact h
    · rw [policyIssues_mem t h] at ht
      exact absurd ht (by decide)
  · intro h
    exact Or.inr (Or.inr (Or.inl h))

theorem discrepancyIssues_eq (d : FieldsDict) (sd se : String) (dv ev : ℚ)
    (hd : dGet d "assetDetails" "estimatedDamage" = some sd)
    (he : dGet d "otherFields" "initialEstimate" = some se)
    (hpd : parseAmount sd = some (.fin dv)) (hdv : 0 < dv)
    (hpe : parseAmount se = some (.fin ev)) (hev : 0 < ev)
    (hsd : sd ≠ "") (hse : se ≠ "") :
    discrepancyIssuesOf d =
      if 1 / 2 < |dv - ev| / max dv ev then [discrepancyMsg (.fin dv) (.fin ev)] else [] := by
  simp only [discrepancyIssuesOf, hd, he, orEmpty]
  rw [if_pos (show (truthy (some sd) && truthy (some se)) = true by simp [truthy, hsd, hse])]
  rw [hpd, hpe]
  dsimp only
  rw [if_pos (show (pyLt (.fin 0) (.fin dv) && pyLt (.fin 0) (.fin ev)) = true by
    simp [pyLt, hdv, hev])]
  simp only [pySub, pyAbs, pyMax_fin, pyDiv]
  rw [if_neg (show ¬ (max dv ev = 0) from ne_of_gt (lt_max_of_lt_left hdv))]
  simp only [pyLt, decide_eq_true_eq]

/-- C4: when both the estimated damage and the initial estimate parse to
strictly positive finite numbers d and e, the validator reports the
large-discrepancy inconsistency exactly when the relative difference
abs (d - e) / max d e exceeds one half. -/
theorem c4_discrepancy (now : SimpleDate) (d : FieldsDict) (sd se : String) (dv ev : ℚ)
    (hd : dGet d "assetDetails" "estimatedDamage" = some sd)
    (he : dGet d "otherFields" "initialEstimate" = some se)
    (hpd : parseAmount sd = some (.fin dv)) (hdv : 0 < dv)
    (hpe : parseAmount se = some (.fin ev)) (hev : 0 < ev) :
    (discrepancyMsg (.fin dv) (.fin ev) ∈ (validate now d).2 ↔
      1 / 2 < |dv - ev| / max dv ev) := by
  have hsd : sd ≠ "" := by
    rintro rfl
    rw [show parseAmount "" = none from by decide] at hpd
    cases hpd
  have hse : se ≠ "" := by
    rintro rfl
    rw [show parseAmount "" = none from by decide] at hpe
    cases hpe
  show _ ∈ find_inconsistencies now d ↔ _
  rw [mem_incons_iff_discr now d _ (discrepancyMsg_head _ _),
    discrepancyIssues_eq d sd se dv ev hd he hpd hdv hpe hev hsd hse]
  by_cases hP : 1 / 2 < |dv - ev| / max dv ev
  · rw [if_pos hP]
    exact ⟨fun _ => hP, fun _ => List.mem_singleton.mpr rfl⟩
  · rw [if_neg hP]
    exact ⟨fun h => absurd h (List.not_mem_nil _), fun h => absurd h hP⟩

theorem c4_discrepancy_witness :
    (discrepancyMsg (.fin 100000) (.fin 40000) ∈
      (validate ⟨2025, 10, 12⟩
        [("assetDetails", [("estimatedDamage", some "100,000")]),
         ("otherFields", [("initialEstimate", some "40,000")])]).2) ∧
    (discrepancyMsg (.fin 100000) (.fin 80000) ∉
      (validate ⟨2025, 10, 12⟩
        [("assetDetails", [("estimatedDamage", some "100,000")]),
         ("otherFields", [("initialEstimate", some "80,000")])]).2) :=
  ⟨(c4_discrepancy ⟨2025, 10, 12⟩ _ "100,000" "40,000" 100000 40000
      (by decide) (by decide) (by decide) (by norm_num) (by decide) (by norm_num)).mpr
      (by rw [abs_of_nonneg (by norm_num), max_eq_left (by norm_num)]; norm_num),
   fun h =>
     absurd ((c4_discrepancy ⟨2025, 10, 12⟩ _ "100,000" "80,000" 100000 80000
      (by decide) (by decide) (by decide) (by norm_num) (by decide) (by norm_num)).mp h)
      (by rw [abs_of_nonneg (by norm_num), max_eq_left (by norm_num)]; norm_num)⟩

/-! C8 -/
/-- C8: a call to the validator returns with its input unchanged: the
state-passing form of the call returns the argument dictionary itself together
with the missing-fields and inconsistencies lists, and the embedded function is
total, so the call never raises. -/
theorem c8_validate_pure (now : SimpleDate) (fields : FieldsDict) :
    validateCall now fields =
      (fields, (find_missing_fields fields, find_inconsistencies now fields)) := rfl

/-! C9 -/

theorem missing_est_mem (d : FieldsDict)
    (hm : isMissingValue (dGet d "assetDetails" "estimatedDamage") = true) :
    "assetDetails.estimatedDamage" ∈ find_missing_fields d := by
  refine List.mem_flatMap.mpr
    ⟨("assetDetails", ["assetType", "assetId", "estimatedDamage"]), by decide, ?_⟩
  refine List.mem_filterMap.mpr ⟨"estimatedDamage", by decide, ?_⟩
  dsimp only
  rw [if_pos hm]
  decide

/-- C9: if the validator reports no missing field, then the estimated-damage
slot holds a non-empty string, and routing that field set with the empty
missing-fields list never produces the tier-five default reasoning: the
default branch is unreachable in the composed validate-then-route pipeline. -/
theorem c9_no_default (d : FieldsDict) (h : find_missing_fields d = []) :
    (∃ s, dGet d "assetDetails" "estimatedDamage" = some s ∧ s ≠ "") ∧
    (route d []).2 ≠ "All mandatory fields present. No special conditions detected" := by
  have h1 : isMissingValue (dGet d "assetDetails" "estimatedDamage") = false := by
    cases hval : isMissingValue (dGet d "assetDetails" "estimatedDamage") with
    | false => rfl
    | true =>
      have := missing_est_mem d hval
      rw [h] at this
      exact absurd this (List.not_mem_nil _)
  obtain ⟨s, hs⟩ : ∃ s, dGet d "assetDetails" "estimatedDamage" = some s := by
    cases hg : dGet d "assetDetails" "estimatedDamage" with
    | none => rw [hg] at h1; exact absurd h1 (by decide)
    | some s => exact ⟨s, rfl⟩
  have hsne : s ≠ "" := by
    rintro rfl
    rw [hs] at h1
    exact absurd h1 (by decide)
  have htr : truthy (dGet d "assetDetails" "estimatedDamage") = true := by
    rw [hs]
    simpa [truthy] using hsne
  refine ⟨⟨s, hs, hsne⟩, ?_⟩
  simp only [route]
  repeat' split
  all_goals simp only [pyJoin]
  all_goals first
    | exact absurd rfl (by assumption)
    | exact absurd htr (by assumption)
    | exact ne_of_head (head_append_left _ rfl) rfl (by decide)
    | exact ne_of_head (head_append_left _ (head_append_left _ rfl)) rfl (by decide)
    | decide

theorem c9_no_default_witness :
    (∃ s, dGet
        [("policyInformation",
           [("policyNumber", some "TX-9923"), ("policyholderName", some "Rajesh Kumar"),
            ("effectiveDates", some "01/04/2025 to 31/03/2026")]),
         ("incidentInformation",
           [("date", some "01/02/2026"), ("time", some "10:30 AM"),
            ("location", some "NH-48 near Gurugram"), ("description", some "Minor collision with a road divider")]),
         ("involvedParties",
           [("claimant", some "Rajesh Kumar"), ("thirdParties", none),
            ("contactDetails", some "+91-98100-12345")]),
         ("assetDetails",
           [("assetType", some "Private Car"), ("assetId", some "MA1TA2BS3C4D56789"),
            ("estimatedDamage", some "8,500")]),
         ("otherFields",
           [("claimType", some "Auto - Property Damage"), ("attachments", some "Photos (3)"),
            ("initialEstimate", some "8,500")])]
        "assetDetails" "estimatedDamage" = some s ∧ s ≠ "") ∧
    (route
        [("policyInformation",
           [("policyNumber", some "TX-9923"), ("policyholderName", some "Rajesh Kumar"),
            ("effectiveDates", some "01/04/2025 to 31/03/2026")]),
         ("incidentInformation",
           [("date", some "01/02/2026"), ("time", some "10:30 AM"),
            ("location", some "NH-48 near Gurugram"), ("description", some "Minor collision with a road divider")]),
         ("involvedParties",
           [("claimant", some "Rajesh Kumar"), ("thirdParties", none),
            ("contactDetails", some "+91-98100-12345")]),
         ("assetDetails",
           [("assetType", some "Private Car"), ("assetId", some "MA1TA2BS3C4D56789"),
            ("estimatedDamage", some "8,500")]),
         ("otherFields",
           [("claimType", some "Auto - Property Damage"), ("attachments", some "Photos (3)"),
            ("initialEstimate", some "8,500")])]
        []).2 ≠ "All mandatory fields present. No special conditions detected" :=
  c9_no_default _ (by decide)

/-! C6: shape preservation -/

theorem keysOf_dictSet {α : Type} (m : List (String × α)) (k : String) (v : α)
    (h : k ∈ keysOf m) : keysOf (dictSet m k v) = keysOf m := by
  induction m with
  | nil => cases h
  | cons p rest ih =>
    simp only [dictSet]
    split
    · rfl
    · next hpk =>
      simp only [keysOf, List.map_cons, List.cons.injEq, true_and]
      apply ih
      simp only [keysOf, List.map_cons, List.mem_cons] at h
      rcases h with h | h
      · exact absurd h.symm hpk
      · exact h

theorem shape_setField (d : FieldsDict) (s k : String) (v : Option String)
    (h : ∀ p ∈ d, p.1 = s → k ∈ keysOf p.2) :
    shape (setField d s k v) = shape d := by
  induction d with
  | nil => rfl
  | cons p rest ih =>
    simp only [setField, shape, List.map_cons] at *
    rw [List.cons.injEq]
    refine ⟨?_, ih (fun q hq => h q (List.mem_cons_of_mem p hq))⟩
    split
    · next hps =>
      simp [keysOf_dictSet p.2 k v (h p (List.mem_cons_self p rest) hps)]
    · rfl

theorem good_set {s k : String} (hk : (s, k) ∈ fieldPairs) (d : FieldsDict) (v : Option String)
    (h : shape d = canonShape) : shape (setField d s k v) = canonShape := by
  rw [← h]
  apply shape_setField
  intro p hp hps
  have hmem : (p.1, keysOf p.2) ∈ canonShape := by
    rw [← h]
    exact List.mem_map_of_mem _ hp
  rw [hps] at hmem
  simp only [canonShape, List.mem_cons, List.not_mem_nil, or_false, Prod.mk.injEq] at hmem
  simp only [fieldPairs, List.mem_cons, List.not_mem_nil, or_false, Prod.mk.injEq] at hk
  rcases hmem with ⟨hs1, hk2⟩ | ⟨hs1, hk2⟩ | ⟨hs1, hk2⟩ | ⟨hs1, hk2⟩ | ⟨hs1, hk2⟩ <;>
    subst hs1 <;> rw [hk2] <;> simp_all

theorem shape_policyNumberPart (o : RegexOracle) (text : String) {d : FieldsDict}
    (h : shape d = canonShape) : shape (policyNumberPart o text d) = canonShape := by
  simp only [policyNumberPart]
  repeat' split
  all_goals repeat (first | exact h | refine good_set (by decide) _ _ ?_)

theorem shape_policyholderPart (o : RegexOracle) (text : String) {d : FieldsDict}
    (h : shape d = canonShape) : shape (policyholderPart o text d) = canonShape := by
  simp only [policyholderPart]
  repeat' split
  all_goals repeat (first | exact h | refine good_set (by decide) _ _ ?_)

theorem shape_effectiveDatesFallbackPart (o : RegexOracle) (text : String) {d : FieldsDict}
    (h : shape d = canonShape) : shape (effectiveDatesFallbackPart o text d) = canonShape := by
  simp only [effectiveDatesFallbackPart]
  repeat' split
  all_goals repeat (first | exact h | refine good_set (by decide) _ _ ?_)

theorem shape_dateTimePart (o : RegexOracle) (text : String) {d : FieldsDict}
    (h : shape d = canonShape) : shape (dateTimePart o text d) = canonShape := by
  simp only [dateTimePart]
  repeat' split
  all_goals repeat (first | exact h | refine good_set (by decide) _ _ ?_)

theorem shape_locationPart (o : RegexOracle) (text : String) {d : FieldsDict}
    (h : shape d = canonShape) : shape (locationPart o text d) = canonShape := by
  simp only [locationPart]
  repeat' split
  all_goals repeat (first | exact h | refine good_set (by decide) _ _ ?_)

theorem shape_descriptionPart (o : RegexOracle) (text : String) {d : FieldsDict}
    (h : shape d = canonShape) : shape (descriptionPart o text d) = canonShape := by
  simp only [descriptionPart]
  repeat' split
  all_goals repeat (first | exact h | refine good_set (by decide) _ _ ?_)

theorem shape_claimantPart (o : RegexOracle) (text : String) {d : FieldsDict}
    (h : shape d = canonShape) : shape (claimantPart o text d) = canonShape := by
  simp only [claimantPart]
  repeat' split
  all_goals repeat (first | exact h | refine good_set (by decide) _ _ ?_)

theorem shape_thirdPartyPart (o : RegexOracle) (text : String) {d : FieldsDict}
    (h : shape d = canonShape) : shape (thirdPartyPart o text d) = canonShape := by
  simp only [thirdPartyPart]
  repeat' split
  all_goals repeat (first | exact h | refine good_set (by decide) _ _ ?_)

theorem shape_contactPart (o : RegexOracle) (text : String) {d : FieldsDict}
    (h : shape d = canonShape) : shape (contactPart o text d) = canonShape := by
  simp only [contactPart]
  repeat' split
  all_goals repeat (first | exact h | refine good_set (by decide) _ _ ?_)

theorem shape_assetTypePart (o : RegexOracle) (text : String) {d : FieldsDict}
    (h : shape d = canonShape) : shape (assetTypePart o text d) = canonShape := by
  simp only [assetTypePart]
  repeat' split
  all_goals repeat (first | exact h | refine good_set (by decide) _ _ ?_)

theorem shape_assetIdPart (o : RegexOracle) (text : String) {d : FieldsDict}
    (h : shape d = canonShape) : shape (assetIdPart o text d) = canonShape := by
  simp only [assetIdPart]
  repeat' split
  all_goals repeat (first | exact h | refine good_set (by decide) _ _ ?_)

theorem shape_estimatedDamagePart (o : RegexOracle) (text : String) {d : FieldsDict}
    (h : shape d = canonShape) : shape (estimatedDamagePart o text d) = canonShape := by
  simp only [estimatedDamagePart]
  repeat' split
  all_goals repeat (first | exact h | refine good_set (by decide) _ _ ?_)

theorem shape_claimTypeAttachmentsPart (o : RegexOracle) (text : String) {d : FieldsDict}
    (h : shape d = canonShape) : shape (claimTypeAttachmentsPart o text d) = canonShape := by
  simp only [claimTypeAttachmentsPart]
  repeat' split
  all_goals repeat (first | exact h | refine good_set (by decide) _ _ ?_)

theorem shape_initialEstimateFallbackPart (o : RegexOracle) (text : String) {d : FieldsDict}
    (h : shape d = canonShape) : shape (initialEstimateFallbackPart o text d) = canonShape := by
  simp only [initialEstimateFallbackPart]
  repeat' split
  all_goals repeat (first | exact h | refine good_set (by decide) _ _ ?_)

theorem shape_extract (o : RegexOracle) (text : String) :
    shape (extract_with_regex o text) = canonShape := by
  unfold extract_with_regex
  exact shape_initialEstimateFallbackPart o text
    (shape_claimTypeAttachmentsPart o text
      (shape_estimatedDamagePart o text
        (shape_assetIdPart o text
          (shape_assetTypePart o text
            (shape_contactPart o text
              (shape_thirdPartyPart o text
                (shape_claimantPart o text
                  (shape_descriptionPart o text
                    (shape_locationPart o text
                      (shape_dateTimePart o text
                        (shape_effectiveDatesFallbackPart o text
                          (shape_policyholderPart o text
                            (shape_policyNumberPart o text rfl)))))))))))))

/-- C6: for every behaviour of the regex engine and every raw input text, the
rule-based extraction produces exactly the five fixed sections with exactly the
sixteen fixed field slots, never adding or dropping a key; each slot holds an
optional string by construction and the embedded function is total, so the
extraction never raises. -/
theorem c6_shape_invariant (o : RegexOracle) (text : String) :
    shape (extract_with_regex o text) = shape get_empty_fields :=
  shape_extract o text

/-! C10: third-party storage -/

theorem dictGet_dictSet_ne {α : Type} (m : List (String × α)) (k k2 : String) (v : α)
    (h : k2 ≠ k) : dictGet (dictSet m k v) k2 = dictGet m k2 := by
  induction m with
  | nil => simp [dictSet, dictGet, Ne.symm h]
  | cons p rest ih =>
    simp only [dictSet]
    split
    · next hpk =>
      simp [dictGet, show ¬ p.1 = k2 from hpk ▸ Ne.symm h]
    · next hpk =>
      simp [dictGet, ih]

theorem dictGet_dictSet_same {α : Type} (m : List (String × α)) (k : String) (v : α) :
    dictGet (dictSet m k v) k = some v := by
  induction m with
  | nil => simp [dictSet, dictGet]
  | cons p rest ih =>
    simp only [dictSet]
    split
    · next hpk => simp [dictGet, hpk]
    · next hpk => simp [dictGet, hpk, ih]

theorem dictGet_setField_ne_sec (d : FieldsDict) (s k s2 : String) (v : Option String)
    (h : s ≠ s2) : dictGet (setField d s k v) s2 = dictGet d s2 := by
  induction d with
  | nil => rfl
  | cons p rest ih =>
    simp only [setField, List.map_cons]
    simp only [setField] at ih
    have hfst : (if p.1 = s then (p.1, dictSet p.2 k v) else p).1 = p.1 := by
      split <;> rfl
    by_cases hp2 : p.1 = s2
    · have hns : ¬ p.1 = s := fun hh => h (hh ▸ hp2)
      rw [if_neg hns]
      simp [dictGet, hp2]
    · simp [dictGet, hfst, hp2, ih]

theorem dictGet_setField_eq_sec (d : FieldsDict) (s k : String) (v : Option String) :
    dictGet (setField d s k v) s = (dictGet d s).map (fun m => dictSet m k v) := by
  induction d with
  | nil => rfl
  | cons p rest ih =>
    simp only [setField, List.map_cons]
    simp only [setField] at ih
    by_cases hp : p.1 = s
    · simp [dictGet, hp]
    · simp [dictGet, hp, ih]

theorem dGet_setField_ne (d : FieldsDict) (s k s2 k2 : String) (v : Option String)
    (h : s ≠ s2 ∨ k ≠ k2) : dGet (setField d s k v) s2 k2 = dGet d s2 k2 := by
  unfold dGet
  by_cases hs : s = s2
  · subst hs
    have hk : k ≠ k2 := h.resolve_left (fun hh => hh rfl)
    rw [dictGet_setField_eq_sec]
    cases dictGet d s with
    | none => rfl
    | some m =>
      simp only [Option.map]
      rw [dictGet_dictSet_ne m k k2 v (Ne.symm hk)]
  · rw [dictGet_setField_ne_sec d s k s2 v hs]

theorem dGet_setField_same (d : FieldsDict) (sec key : String) (v : Option String)
    (hm : (dictGet d sec).isSome) : dGet (setField d sec key v) sec key = v := by
  unfold dGet
  rw [dictGet_setField_eq_sec]
  cases hg : dictGet d sec with
  | none => rw [hg] at hm; cases hm
  | some m =>
    simp only [Option.map]
    rw [dictGet_dictSet_same m key v]

/-- Reads of the third-party slot are unaffected by writes to any other slot. -/
theorem tpKeep1 (d : FieldsDict) (v : Option String) :
    dGet (setField d "policyInformation" "policyNumber" v) "involvedParties" "thirdParties" =
      dGet d "involvedParties" "thirdParties" :=
  dGet_setField_ne d "policyInformation" "policyNumber" "involvedParties" "thirdParties" v (by decide)

theorem tpKeep2 (d : FieldsDict) (v : Option String) :
    dGet (setField d "policyInformation" "policyholderName" v) "involvedParties" "thirdParties" =
      dGet d "involvedParties" "thirdParties" :=
  dGet_setField_ne d "policyInformation" "policyholderName" "involvedParties" "thirdParties" v (by decide)

theorem tpKeep3 (d : FieldsDict) (v : Option String) :
    dGet (setField d "policyInformation" "effectiveDates" v) "involvedParties" "thirdParties" =
      dGet d "involvedParties" "thirdParties" :=
  dGet_setField_ne d "policyInformation" "effectiveDates" "involvedParties" "thirdParties" v (by decide)

theorem tpKeep4 (d : FieldsDict) (v : Option String) :
    dGet (setField d "incidentInformation" "date" v) "involvedParties" "thirdParties" =
      dGet d "involvedParties" "thirdParties" :=
  dGet_setField_ne d "incidentInformation" "date" "involvedParties" "thirdParties" v (by decide)

theorem tpKeep5 (d : FieldsDict) (v : Option String) :
    dGet (setField d "incidentInformation" "time" v) "involvedParties" "thirdParties" =
      dGet d "involvedParties" "thirdParties" :=
  dGet_setField_ne d "incidentInformation" "time" "involvedParties" "thirdParties" v (by decide)

theorem tpKeep6 (d : FieldsDict) (v : Option String) :
    dGet (setField d "incidentInformation" "location" v) "involvedParties" "thirdParties" =
      dGet d "involvedParties" "thirdParties" :=
  dGet_setField_ne d "incidentInformation" "location" "involvedParties" "thirdParties" v (by decide)

theorem tpKeep7 (d : FieldsDict) (v : Option String) :
    dGet (setField d "incidentInformation" "description" v) "involvedParties" "thirdParties" =
      dGet d "involvedParties" "thirdParties" :=
  dGet_setField_ne d "incidentInformation" "description" "involvedParties" "thirdParties" v (by decide)

theorem tpKeep8 (d : FieldsDict) (v : Option String) :
    dGet (setField d "involvedParties" "claimant" v) "involvedParties" "thirdParties" =
      dGet d "involvedParties" "thirdParties" :=
  dGet_setField_ne d "involvedParties" "claimant" "involvedParties" "thirdParties" v (by decide)

theorem tpKeep9 (d : FieldsDict) (v : Option String) :
    dGet (setField d "involvedParties" "contactDetails" v) "involvedParties" "thirdParties" =
      dGet d "involvedParties" "thirdParties" :=
  dGet_setField_ne d "involvedParties" "contactDetails" "involvedParties" "thirdParties" v (by decide)

theorem tpKeep10 (d : FieldsDict) (v : Option String) :
    dGet (setField d "assetDetails" "assetType" v) "involvedParties" "thirdParties" =
      dGet d "involvedParties" "thirdParties" :=
  dGet_setField_ne d "assetDetails" "assetType" "involvedParties" "thirdParties" v (by decide)

theorem tpKeep11 (d : FieldsDict) (v : Option String) :
    dGet (setField d "assetDetails" "assetId" v) "involvedParties" "thirdParties" =
      dGet d "involvedParties" "thirdParties" :=
  dGet_setField_ne d "assetDetails" "assetId" "involvedParties" "thirdParties" v (by decide)

theorem tpKeep12 (d : FieldsDict) (v : Option String) :
    dGet (setField d "assetDetails" "estimatedDamage" v) "involvedParties" "thirdParties" =
      dGet d "involvedParties" "thirdParties" :=
  dGet_setField_ne d "assetDetails" "estimatedDamage" "involvedParties" "thirdParties" v (by decide)

theorem tpKeep13 (d : FieldsDict) (v : Option String) :
    dGet (setField d "otherFields" "claimType" v) "involvedParties" "thirdParties" =
      dGet d "involvedParties" "thirdParties" :=
  dGet_setField_ne d "otherFields" "claimType" "involvedParties" "thirdParties" v (by decide)

theorem tpKeep14 (d : FieldsDict) (v : Option String) :
    dGet (setField d "otherFields" "attachments" v) "involvedParties" "thirdParties" =
      dGet d "involvedParties" "thirdParties" :=
  dGet_setField_ne d "otherFields" "attachments" "involvedParties" "thirdParties" v (by decide)

theorem tpKeep15 (d : FieldsDict) (v : Option String) :
    dGet (setField d "otherFields" "initialEstimate" v) "involvedParties" "thirdParties" =
      dGet d "involvedParties" "thirdParties" :=
  dGet_setField_ne d "otherFields" "initialEstimate" "involvedParties" "thirdParties" v (by decide)

theorem tp_policyNumberPart (o : RegexOracle) (text : String) (d : FieldsDict) :
    dGet (policyNumberPart o text d) "involvedParties" "thirdParties" =
      dGet d "involvedParties" "thirdParties" := by
  simp only [policyNumberPart]
  repeat' split
  all_goals try simp only [tpKeep1, tpKeep2, tpKeep3, tpKeep4, tpKeep5, tpKeep6, tpKeep7, tpKeep8, tpKeep9, tpKeep10, tpKeep11, tpKeep12, tpKeep13, tpKeep14, tpKeep15]
  all_goals rfl

theorem tp_policyholderPart (o : RegexOracle) (text : String) (d : FieldsDict) :
    dGet (policyholderPart o text d) "involvedParties" "thirdParties" =
      dGet d "involvedParties" "thirdParties" := by
  simp only [policyholderPart]
  repeat' split
  all_goals try simp only [tpKeep1, tpKeep2, tpKeep3, tpKeep4, tpKeep5, tpKeep6, tpKeep7, tpKeep8, tpKeep9, tpKeep10, tpKeep11, tpKeep12, tpKeep13, tpKeep14, tpKeep15]
  all_goals rfl

theorem tp_effectiveDatesFallbackPart (o : RegexOracle) (text : String) (d : FieldsDict) :
    dGet (effectiveDatesFallbackPart o text d) "involvedParties" "thirdParties" =
      dGet d "involvedParties" "thirdParties" := by
  simp only [effectiveDatesFallbackPart]
  repeat' split
  all_goals try simp only [tpKeep1, tpKeep2, tpKeep3, tpKeep4, tpKeep5, tpKeep6, tpKeep7, tpKeep8, tpKeep9, tpKeep10, tpKeep11, tpKeep12, tpKeep13, tpKeep14, tpKeep15]
  all_goals rfl

theorem tp_dateTimePart (o : RegexOracle) (text : String) (d : FieldsDict) :
    dGet (dateTimePart o text d) "involvedParties" "thirdParties" =
      dGet d "involvedParties" "thirdParties" := by
  simp only [dateTimePart]
  repeat' split
  all_goals try simp only [tpKeep1, tpKeep2, tpKeep3, tpKeep4, tpKeep5, tpKeep6, tpKeep7, tpKeep8, tpKeep9, tpKeep10, tpKeep11, tpKeep12, tpKeep13, tpKeep14, tpKeep15]
  all_goals rfl

theorem tp_locationPart (o : RegexOracle) (text : String) (d : FieldsDict) :
    dGet (locationPart o text d) "involvedParties" "thirdParties" =
      dGet d "involvedParties" "thirdParties" := by
  simp only [locationPart]
  repeat' split
  all_goals try simp only [tpKeep1, tpKeep2, tpKeep3, tpKeep4, tpKeep5, tpKeep6, tpKeep7, tpKeep8, tpKeep9, tpKeep10, tpKeep11, tpKeep12, tpKeep13, tpKeep14, tpKeep15]
  all_goals rfl

theorem tp_descriptionPart (o : RegexOracle) (text : String) (d : FieldsDict) :
    dGet (descriptionPart o text d) "involvedParties" "thirdParties" =
      dGet d "involvedParties" "thirdParties" := by
  simp only [descriptionPart]
  repeat' split
  all_goals try simp only [tpKeep1, tpKeep2, tpKeep3, tpKeep4, tpKeep5, tpKeep6, tpKeep7, tpKeep8, tpKeep9, tpKeep10, tpKeep11, tpKeep12, tpKeep13, tpKeep14, tpKeep15]
  all_goals rfl

theorem tp_claimantPart (o : RegexOracle) (text : String) (d : FieldsDict) :
    dGet (claimantPart o text d) "involvedParties" "thirdParties" =
      dGet d "involvedParties" "thirdParties" := by
  simp only [claimantPart]
  repeat' split
  all_goals try simp only [tpKeep1, tpKeep2, tpKeep3, tpKeep4, tpKeep5, tpKeep6, tpKeep7, tpKeep8, tpKeep9, tpKeep10, tpKeep11, tpKeep12, tpKeep13, tpKeep14, tpKeep15]
  all_goals rfl

theorem tp_contactPart (o : RegexOracle) (text : String) (d : FieldsDict) :
    dGet (contactPart o text d) "involvedParties" "thirdParties" =
      dGet d "involvedParties" "thirdParties" := by
  simp only [contactPart]
  repeat' split
  all_goals try simp only [tpKeep1, tpKeep2, tpKeep3, tpKeep4, tpKeep5, tpKeep6, tpKeep7, tpKeep8, tpKeep9, tpKeep10, tpKeep11, tpKeep12, tpKeep13, tpKeep14, tpKeep15]
  all_goals rfl

theorem tp_assetTypePart (o : RegexOracle) (text : String) (d : FieldsDict) :
    dGet (assetTypePart o text d) "involvedParties" "thirdParties" =
      dGet d "involvedParties" "thirdParties" := by
  simp only [assetTypePart]
  repeat' split
  all_goals try simp only [tpKeep1, tpKeep2, tpKeep3, tpKeep4, tpKeep5, tpKeep6, tpKeep7, tpKeep8, tpKeep9, tpKeep10, tpKeep11, tpKeep12, tpKeep13, tpKeep14, tpKeep15]
  all_goals rfl

theorem tp_assetIdPart (o : RegexOracle) (text : String) (d : FieldsDict) :
    dGet (assetIdPart o text d) "involvedParties" "thirdParties" =
      dGet d "involvedParties" "thirdParties" := by
  simp only [assetIdPart]
  repeat' split
  all_goals try simp only [tpKeep1, tpKeep2, tpKeep3, tpKeep4, tpKeep5, tpKeep6, tpKeep7, tpKeep8, tpKeep9, tpKeep10, tpKeep11, tpKeep12, tpKeep13, tpKeep14, tpKeep15]
  all_goals rfl

theorem tp_estimatedDamagePart (o : RegexOracle) (text : String) (d : FieldsDict) :
    dGet (estimatedDamagePart o text d) "involvedParties" "thirdParties" =
      dGet d "involvedParties" "thirdParties" := by
  simp only [estimatedDamagePart]
  repeat' split
  all_goals try simp only [tpKeep1, tpKeep2, tpKeep3, tpKeep4, tpKeep5, tpKeep6, tpKeep7, tpKeep8, tpKeep9, tpKeep10, tpKeep11, tpKeep12, tpKeep13, tpKeep14, tpKeep15]
  all_goals rfl

theorem tp_claimTypeAttachmentsPart (o : RegexOracle) (text : String) (d : FieldsDict) :
    dGet (claimTypeAttachmentsPart o text d) "involvedParties" "thirdParties" =
      dGet d "involvedParties" "thirdParties" := by
  simp only [claimTypeAttachmentsPart]
  repeat' split
  all_goals try simp only [tpKeep1, tpKeep2, tpKeep3, tpKeep4, tpKeep5, tpKeep6, tpKeep7, tpKeep8, tpKeep9, tpKeep10, tpKeep11, tpKeep12, tpKeep13, tpKeep14, tpKeep15]
  all_goals rfl

theorem tp_initialEstimateFallbackPart (o : RegexOracle) (text : String) (d : FieldsDict) :
    dGet (initialEstimateFallbackPart o text d) "involvedParties" "thirdParties" =
      dGet d "involvedParties" "thirdParties" := by
  simp only [initialEstimateFallbackPart]
  repeat' split
  all_goals try simp only [tpKeep1, tpKeep2, tpKeep3, tpKeep4, tpKeep5, tpKeep6, tpKeep7, tpKeep8, tpKeep9, tpKeep10, tpKeep11, tpKeep12, tpKeep13, tpKeep14, tpKeep15]
  all_goals rfl


theorem involved_present {d : FieldsDict} (h : shape d = canonShape) :
    (dictGet d "involvedParties").isSome := by
  rcases d with _ | ⟨p1, _ | ⟨p2, _ | ⟨p3, rest⟩⟩⟩
  · simp [shape, canonShape] at h
  · simp [shape, canonShape] at h
  · simp [shape, canonShape] at h
  · simp only [shape, canonShape, List.map_cons, List.cons.injEq, Prod.mk.injEq] at h
    obtain ⟨⟨h1, _⟩, ⟨h2, _⟩, ⟨h3, _⟩, _⟩ := h
    simp [dictGet, h1, h2, h3]

theorem pyLower_eq_empty {s : String} (h : pyLower s = "") : s = "" := by
  have hd := congrArg String.data h
  simp only [pyLower] at hd
  rw [List.map_eq_nil_iff] at hd
  cases s
  simp_all

theorem thirdPartyPart_char (o : RegexOracle) (text g : String) (d : FieldsDict)
    (h : o.thirdPartyName text = some g) (hsh : shape d = canonShape)
    (hn : dGet d "involvedParties" "thirdParties" = none) :
    dGet (thirdPartyPart o text d) "involvedParties" "thirdParties" =
      (if pyLower (pyStrip g) = "na" ∨ pyStrip g = "" then none else some (pyStrip g)) := by
  have hip : (dictGet d "involvedParties").isSome := involved_present hsh
  simp only [thirdPartyPart, h]
  by_cases hmem : pyLower (pyStrip g) ∈
      (["none", "n/a", "na", "", "none - single vehicle accident"] : List String)
  · rw [if_neg (not_not_intro hmem)]
    simp only [List.mem_cons, List.not_mem_nil, or_false] at hmem
    rcases hmem with he | he | he | he | he
    · rw [he, if_pos (by decide), dGet_setField_same d _ _ _ hip]
      rw [if_neg ?_]
      rintro (hc | hc)
      · exact absurd hc (by decide)
      · rw [hc] at he
        exact absurd he (by decide)
    · rw [he, if_pos (by decide), dGet_setField_same d _ _ _ hip]
      rw [if_neg ?_]
      rintro (hc | hc)
      · exact absurd hc (by decide)
      · rw [hc] at he
        exact absurd he (by decide)
    · rw [he, if_neg (by decide), if_pos (Or.inl rfl)]
      exact hn
    · have hg : pyStrip g = "" := pyLower_eq_empty he
      rw [he, if_neg (by decide), if_pos (Or.inr hg)]
      exact hn
    · rw [he, if_pos (by decide), dGet_setField_same d _ _ _ hip]
      rw [if_neg ?_]
      rintro (hc | hc)
      · exact absurd hc (by decide)
      · rw [hc] at he
        exact absurd he (by decide)
  · rw [if_pos hmem, dGet_setField_same d _ _ _ hip]
    rw [if_neg ?_]
    rintro (hc | hc)
    · exact hmem (by rw [hc]; decide)
    · exact hmem (by rw [hc]; decide)

/-- C10: when the extraction matches a third-party-name labeled line, the
trimmed line is stored in the third-parties slot for every value whose trimmed
lowercase form is not exactly na and not empty (so the explicit negative
markers none, n/a and none - single vehicle accident are preserved as present
values), while a line whose trimmed lowercase form is exactly na, or blank,
leaves the slot absent. -/
theorem c10_third_party (o : RegexOracle) (text g : String)
    (h : o.thirdPartyName text = some g) :
    dGet (extract_with_regex o text) "involvedParties" "thirdParties" =
      (if pyLower (pyStrip g) = "na" ∨ pyStrip g = "" then none else some (pyStrip g)) := by
  unfold extract_with_regex
  rw [tp_initialEstimateFallbackPart, tp_claimTypeAttachmentsPart, tp_estimatedDamagePart,
    tp_assetIdPart, tp_assetTypePart, tp_contactPart]
  apply thirdPartyPart_char o text g _ h
  · exact shape_claimantPart o text (shape_descriptionPart o text (shape_locationPart o text
      (shape_dateTimePart o text (shape_effectiveDatesFallbackPart o text
        (shape_policyholderPart o text (shape_policyNumberPart o text rfl))))))
  · rw [tp_claimantPart, tp_descriptionPart, tp_locationPart, tp_dateTimePart,
      tp_effectiveDatesFallbackPart, tp_policyholderPart, tp_policyNumberPart]
    rfl

theorem c10_third_party_witness :
    dGet (extract_with_regex
        { noneOracle with thirdPartyName := fun _ => some "None - Single Vehicle Accident" } "")
      "involvedParties" "thirdParties" = some "None - Single Vehicle Accident" ∧
    dGet (extract_with_regex
        { noneOracle with thirdPartyName := fun _ => some "NA" } "")
      "involvedParties" "thirdParties" = none :=
  ⟨(c10_third_party _ "" "None - Single Vehicle Accident" rfl).trans (by decide),
   (c10_third_party _ "" "NA" rfl).trans (by decide)⟩
